import Mathlib

/-!
Shallow embedding of the ai-travel-demo backend (src/backend) in Lean 4.

The embedding follows the source files:
  * `models/database.py`  — trip-leg data model, `validate_multi_city_trip`,
    `has_active_subscription`;
  * `app_agents/travel_agents.py` — `record_step`, `extract_messages`, and the
    sequential Planner → Flights → Hotels → Itinerary pipelines
    `run_travel_planning` / `run_multi_city_planning`;
  * `app.py` — `_execute_trip_planning`, `plan_trip`, `plan_trip_stream`
    (worker `run_planner` and consumer `event_generator`);
  * `tools/hotels_tool.py` — `search_hotels`.

External capabilities (the OpenAI Agents SDK run of a single agent, the SQL
session, wall-clock time, ISO date parsing) are modelled as explicit
parameters, so every definition is executable and the orchestration logic is
taken verbatim from the source.
-/

/-! ### Data model (models/database.py) -/

/-- One segment of a multi-city trip (`TripLeg` in `models/database.py`). -/
structure TripLeg where
  origin : String
  destination : String
  departure_date : String
  leg_number : Int
deriving DecidableEq, Repr

instance : Inhabited TripLeg := ⟨⟨"", "", "", 0⟩⟩

/-- Multi-city trip planning request (`MultiCityTripPlanRequest`). -/
structure MultiCityTripPlanRequest where
  trip_legs : List TripLeg
  budget : ℚ
  passengers : Int
deriving DecidableEq, Repr

/-- Single-city trip planning request (`TripPlanRequest`). -/
structure TripPlanRequest where
  origin : String
  destination : String
  departure_date : String
  return_date : String
  budget : ℚ
  passengers : Int
deriving DecidableEq, Repr

/-- The continuity scan inside `validate_multi_city_trip`:
`for i in range(len(trip_legs) - 1): if trip_legs[i].destination != trip_legs[i+1].origin: ...`
returns the first offending adjacent pair together with its 0-based position
(`j` is the position of the first list element within the whole legs list). -/
def findDiscontinuity : List TripLeg → Nat → Option (Nat × TripLeg × TripLeg)
  | a :: b :: rest, j =>
      if a.destination ≠ b.origin then some (j, a, b)
      else findDiscontinuity (b :: rest) (j + 1)
  | _, _ => none

/-- The rejection message produced by the continuity check
(`f"Leg {i+1} ends at ... but leg {i+2} starts at ..."`, with `i` 0-based). -/
def continuityMessage (i : Nat) (a b : TripLeg) : String :=
  "Leg " ++ toString (i + 1) ++ " ends at " ++ a.destination ++
    " but leg " ++ toString (i + 2) ++ " starts at " ++ b.origin

/-- Function `validate_multi_city_trip` from `models/database.py`, in source order:
minimum legs, maximum legs, round trip, leg continuity. -/
def validate_multi_city_trip (trip_legs : List TripLeg) : Bool × String :=
  if trip_legs.length < 2 then
    (false, "Multi-city trips must have at least 2 legs")
  else if trip_legs.length > 4 then
    (false, "Multi-city trips cannot exceed 4 legs (5 cities total)")
  else
    let origin := (trip_legs.headD default).origin
    let final_destination := (trip_legs.getLastD default).destination
    if origin ≠ final_destination then
      (false, "Trip must return to origin. Started at " ++ origin ++
        ", ended at " ++ final_destination)
    else
      match findDiscontinuity trip_legs 0 with
      | some (i, a, b) => (false, continuityMessage i a b)
      | none => (true, "Valid")

/-- The three documented invariants of a multi-city request: leg count between
2 and 4, round trip (first origin equals last destination), and adjacent-leg
continuity. -/
def LegInvariants (trip_legs : List TripLeg) : Prop :=
  (2 ≤ trip_legs.length ∧ trip_legs.length ≤ 4) ∧
  (trip_legs.headD default).origin = (trip_legs.getLastD default).destination ∧
  List.Chain' (fun a b => a.destination = b.origin) trip_legs

/-- Does a string contain any decimal digit character? Used to show that a
message cannot be naming a numeric leg index. -/
def hasDigit (s : String) : Bool :=
  s.data.any (fun c => c.isDigit)

/-- The `Customer` row (`models/database.py`); only the fields consulted by
`has_active_subscription` are kept. -/
structure Customer where
  email : String
  subscription_status : String
  subscription_tier : String
  current_period_end : Option String
deriving DecidableEq, Repr

/-- Function `has_active_subscription` from `models/database.py`.  The SQL lookup
`select(Customer).where(Customer.email == email) ... .first()` is modelled as
`List.find?` on the customer table, and the wall-clock comparison
`datetime.fromisoformat(period_end) < datetime.utcnow()` is modelled by the
external predicate `expired`. -/
def has_active_subscription (db : List Customer) (email : String)
    (expired : String → Bool) : Bool :=
  match db.find? (fun c => c.email == email) with
  | none => false
  | some customer =>
    if customer.subscription_tier ≠ "premium" then false
    else if customer.subscription_status ≠ "active" then false
    else
      match customer.current_period_end with
      | some s => if s ≠ "" then (if expired s then false else true) else true
      | none => true

/-! ### Workflow steps and the step recorder (app_agents/travel_agents.py) -/

/-- A transcript message `{'role': ..., 'content': ...}`. -/
structure Message where
  role : String
  content : String
deriving DecidableEq, Repr

/-- A workflow step emitted by the `LoggingHooks` callbacks
(`agent_start`, `agent_end`, `tool_call`, `llm_call`).  Its payload is
produced by runtime introspection of the agents SDK, which is external to the
orchestrator, so it is kept abstract. -/
structure HookStep where
  payload : String
deriving DecidableEq, Repr

/-- One entry of the `workflow_steps` log: either a handoff record built by
`add_handoff` or a step recorded by a lifecycle hook. -/
inductive WorkflowStep where
  | handoff (frm : String) (toAgent : String) (message : String)
      (context : Option String)
  | hook (step : HookStep)
deriving DecidableEq, Repr

/-- Helper `add_handoff(from_agent, to_agent, context)`: the step dict carries the
`context` key only when `context` is truthy (a non-empty string). -/
def mkHandoff (from_agent to_agent context : String) : WorkflowStep :=
  WorkflowStep.handoff from_agent to_agent
    ("➡️  Handing off from " ++ from_agent ++ " to " ++ to_agent)
    (if context = "" then none else some context)

/-- The `progress_callback` argument of the planning functions:
`attached = false` models `progress_callback is None`; `raises step` models
the callback raising an exception when invoked on `step`. -/
structure CallbackSpec where
  attached : Bool
  raises : WorkflowStep → Bool

/-- No callback attached (`progress_callback=None`, as in `plan_trip`). -/
def cbNone : CallbackSpec := ⟨false, fun _ => false⟩

/-- The streaming callback of `plan_trip_stream`: it is attached and never
raises (`loop.call_soon_threadsafe(queue.put_nowait, ...)` on an unbounded
queue). -/
def cbStream : CallbackSpec := ⟨true, fun _ => false⟩

/-- The mutable state touched by `record_step`: the in-memory
`workflow_steps` log plus the list of steps actually delivered to the
callback (the relay queue contents, in order). -/
structure RecState where
  workflow_steps : List WorkflowStep
  emitted : List WorkflowStep
deriving DecidableEq, Repr

/-- Function `record_step` from both planning functions: append the step to
`workflow_steps` unconditionally; if a callback is attached, invoke it and
swallow any exception (`try: progress_callback(step) except Exception: pass`).
A step is delivered (appears in `emitted`) exactly when the callback is
attached and does not raise. -/
def record_step (cb : CallbackSpec) (s : RecState) (step : WorkflowStep) :
    RecState :=
  { workflow_steps := s.workflow_steps ++ [step],
    emitted :=
      if cb.attached && !(cb.raises step) then s.emitted ++ [step]
      else s.emitted }

/-- Record a batch of steps in order (the steps a single agent run emits
through its hooks). -/
def recordAll (cb : CallbackSpec) (s : RecState) (steps : List WorkflowStep) :
    RecState :=
  steps.foldl (record_step cb) s

/-! ### The agent-execution capability -/

/-- The four fixed agents of the pipeline. -/
inductive AgentName where
  | planner
  | flights
  | hotels
  | itinerary
deriving DecidableEq, Repr

/-- What one successful `run_agent(agent, prompt)` call contributes:
the steps its hooks record, the transcript messages `extract_messages`
returns (extended onto `collected_messages`), and the response text. -/
structure AgentOutcome where
  steps : List WorkflowStep
  messages : List Message
  response : String
deriving Repr

/-- Result of one `run_agent` call: success, or an exception carrying its
description (`str(e)`) together with the steps the hooks had already recorded
before the raise (a failing run extends no messages, since
`collected_messages.extend` runs only after a successful extraction). -/
inductive AgentRun where
  | ok (o : AgentOutcome)
  | fail (err : String) (steps : List WorkflowStep)
deriving Repr

/-- The external agent-execution capability: what `Runner.run_sync` does for a
given agent and prompt.  A fixed function, so the same agent and prompt yield
the same outcome in every run that shares the environment. -/
def AgentEnv := AgentName → String → AgentRun

/-! ### Pipeline outputs -/

/-- The dictionary returned by `run_travel_planning` /
`run_multi_city_planning`.  On success the keys are
`success/messages/final_response/workflow_steps/trip_type`; on failure
`success/error/messages/workflow_steps` (no `final_response`, no
`trip_type`). -/
structure RunOutput where
  success : Bool
  messages : List Message
  final_response : Option String
  workflow_steps : List WorkflowStep
  trip_type : Option String
  error : Option String
deriving DecidableEq, Repr

/-- The failure dictionary built in the `except Exception as e:` handler of
both planning functions. -/
def failOutput (e : String) (msgs : List Message) (s : RecState) : RunOutput :=
  ⟨false, msgs, none, s.workflow_steps, none, some e⟩

/-! ### Prompt construction -/

/-- Function `_format_trip_prompt` from `app.py`. -/
def _format_trip_prompt (r : TripPlanRequest) : String :=
  "\n    I need to plan a trip with the following details:\n" ++
  "    - Origin: " ++ r.origin ++ "\n" ++
  "    - Destination: " ++ r.destination ++ "\n" ++
  "    - Departure Date: " ++ r.departure_date ++ "\n" ++
  "    - Return Date: " ++ r.return_date ++ "\n" ++
  "    - Budget: $" ++ toString r.budget ++ "\n" ++
  "    - Number of Passengers: " ++ toString r.passengers ++ "\n\n" ++
  "    Please search for flights and hotels that fit within my budget and provide recommendations.\n    "

/-- The `legs_description` block of `run_multi_city_planning`. -/
def legsDescription (trip_legs : List TripLeg) : String :=
  String.intercalate "\n"
    (trip_legs.map (fun leg =>
      "  Leg " ++ toString leg.leg_number ++ ": " ++ leg.origin ++ " → " ++
        leg.destination ++ " on " ++ leg.departure_date))

/-- The `user_request` prompt built at the top of `run_multi_city_planning`
(note `trip_legs[0]['origin']`: the function assumes a non-empty legs list,
which `_execute_trip_planning` guarantees through validation). -/
def multiCityUserRequest (trip_legs : List TripLeg) (budget : ℚ)
    (passengers : Int) : String :=
  "\n    I need to plan a MULTI-CITY trip with the following details:\n\n" ++
  "    Trip Legs:\n    " ++ legsDescription trip_legs ++ "\n\n" ++
  "    - Total Budget: $" ++ toString budget ++ "\n" ++
  "    - Number of Passengers: " ++ toString passengers ++ "\n\n" ++
  "    IMPORTANT INSTRUCTIONS:\n" ++
  "    1. Search for flights for EACH leg separately\n" ++
  "    2. Search for hotels in destination cities ONLY (do NOT book hotels at the origin city: " ++
    (trip_legs.headD default).origin ++ ")\n" ++
  "    3. Ensure all recommendations fit within the total budget of $" ++
    toString budget ++ "\n\n" ++
  "    Please search for flights and hotels that fit within my budget and provide recommendations.\n    "

/-- The `itinerary_prompt` of `run_travel_planning`, synthesized from the
user request and the three earlier summaries. -/
def singleItineraryPrompt (user_request flights_summary hotels_summary
    planner_summary : String) : String :=
  "\n        The traveler shared the following request:\n        " ++
  user_request ++ "\n\n" ++
  "        Flights specialist summary:\n        " ++ flights_summary ++ "\n\n" ++
  "        Hotels specialist summary:\n        " ++ hotels_summary ++ "\n\n" ++
  "        Planner notes:\n        " ++ planner_summary ++ "\n\n" ++
  "        Please craft a polished final travel recommendation that:\n" ++
  "        - Presents the best outbound and return flight options\n" ++
  "        - Highlights 2-3 hotel choices with key amenities\n" ++
  "        - Mentions approximate combined cost against the user's budget\n" ++
  "        - Provides any helpful travel tips or next steps\n\n" ++
  "        Format the response in Markdown.\n        "

/-- The `itinerary_prompt` of `run_multi_city_planning` (also mentions the
total budget). -/
def multiItineraryPrompt (budget : ℚ) (user_request flights_summary
    hotels_summary planner_summary : String) : String :=
  "\n        The traveler shared the following multi-city trip request:\n        " ++
  user_request ++ "\n\n" ++
  "        Flights specialist summary:\n        " ++ flights_summary ++ "\n\n" ++
  "        Hotels specialist summary:\n        " ++ hotels_summary ++ "\n\n" ++
  "        Planner notes:\n        " ++ planner_summary ++ "\n\n" ++
  "        Please craft a polished final multi-city travel recommendation that:\n" ++
  "        - Organizes the itinerary by leg/city in chronological order\n" ++
  "        - Shows flight options for each leg (departure/arrival times, airline, price)\n" ++
  "        - Highlights 2-3 hotel choices PER destination city with key amenities\n" ++
  "        - Calculates total cost (flights + hotels) and compares to budget of $" ++
    toString budget ++ "\n" ++
  "        - Provides a day-by-day breakdown of the journey\n" ++
  "        - Includes helpful travel tips for multi-city travel\n\n" ++
  "        Format the response in Markdown with clear sections.\n        "

/-! ### The four-stage pipeline -/

/-- The shared body of `run_travel_planning` and `run_multi_city_planning`
(the two Python functions are line-for-line identical after the user request
is built, except for the itinerary prompt text and the `trip_type` value,
which are passed in here).  Stages run strictly in order
Planner → Flights → Hotels → Itinerary with a recorded handoff before each of
the last three; the `try/except` of the source returns the failure dictionary
with everything accumulated so far.  Returns the result dictionary, the list
of steps delivered to the callback, and the list of agents that were actually
invoked. -/
def runPipeline (env : AgentEnv) (cb : CallbackSpec) (user_request : String)
    (itinPrompt : String → String → String → String → String)
    (tripType : String) :
    RunOutput × List WorkflowStep × List AgentName :=
  let s0 : RecState := ⟨[], []⟩
  match env AgentName.planner user_request with
  | AgentRun.fail e st =>
      let s1 := recordAll cb s0 st
      (failOutput e [] s1, s1.emitted, [AgentName.planner])
  | AgentRun.ok o1 =>
      let s1 := recordAll cb s0 o1.steps
      let m1 := o1.messages
      let s2 := record_step cb s1 (mkHandoff "PlannerAgent" "FlightsAgent" user_request)
      match env AgentName.flights user_request with
      | AgentRun.fail e st =>
          let s3 := recordAll cb s2 st
          (failOutput e m1 s3, s3.emitted, [AgentName.planner, AgentName.flights])
      | AgentRun.ok o2 =>
          let s3 := recordAll cb s2 o2.steps
          let m2 := m1 ++ o2.messages
          let s4 := record_step cb s3 (mkHandoff "FlightsAgent" "HotelsAgent" user_request)
          match env AgentName.hotels user_request with
          | AgentRun.fail e st =>
              let s5 := recordAll cb s4 st
              (failOutput e m2 s5, s5.emitted,
               [AgentName.planner, AgentName.flights, AgentName.hotels])
          | AgentRun.ok o3 =>
              let s5 := recordAll cb s4 o3.steps
              let m3 := m2 ++ o3.messages
              let ip := itinPrompt user_request o2.response o3.response o1.response
              let s6 := record_step cb s5 (mkHandoff "HotelsAgent" "ItineraryAgent" ip)
              match env AgentName.itinerary ip with
              | AgentRun.fail e st =>
                  let s7 := recordAll cb s6 st
                  (failOutput e m3 s7, s7.emitted,
                   [AgentName.planner, AgentName.flights, AgentName.hotels,
                    AgentName.itinerary])
              | AgentRun.ok o4 =>
                  let s7 := recordAll cb s6 o4.steps
                  let m4 := m3 ++ o4.messages
                  (⟨true, m4, some o4.response, s7.workflow_steps, some tripType, none⟩,
                   s7.emitted,
                   [AgentName.planner, AgentName.flights, AgentName.hotels,
                    AgentName.itinerary])

/-- Function `run_travel_planning` from `app_agents/travel_agents.py`. -/
def run_travel_planning (env : AgentEnv) (cb : CallbackSpec)
    (user_request : String) : RunOutput × List WorkflowStep × List AgentName :=
  runPipeline env cb user_request singleItineraryPrompt "single_city"

/-- Function `run_multi_city_planning` from `app_agents/travel_agents.py`. -/
def run_multi_city_planning (env : AgentEnv) (cb : CallbackSpec)
    (trip_legs : List TripLeg) (budget : ℚ) (passengers : Int) :
    RunOutput × List WorkflowStep × List AgentName :=
  runPipeline env cb (multiCityUserRequest trip_legs budget passengers)
    (multiItineraryPrompt budget) "multi_city"

/-! ### The endpoint layer (app.py) -/

/-- Exception type `fastapi.HTTPException` as raised by `_execute_trip_planning`. -/
structure HTTPException where
  status_code : Nat
  detail : String
deriving DecidableEq, Repr

/-- The success dictionary returned by `_execute_trip_planning`. -/
structure ExecResult where
  success : Bool
  plan : String
  messages : List Message
  workflow_steps : List WorkflowStep
  final_response : Option String
  trip_type : String
deriving DecidableEq, Repr

/-- What `_execute_trip_planning` does for a request: return the success
dictionary, or raise an `HTTPException`. -/
inductive ExecOutcome where
  | ok (r : ExecResult)
  | httpError (e : HTTPException)
deriving DecidableEq, Repr

/-- Does the outcome carry a `success` field at all?  Only the success
dictionary does; an `HTTPException` carries just `status_code` and
`detail`. -/
def carriesSuccessFlag : ExecOutcome → Bool
  | ExecOutcome.ok _ => true
  | ExecOutcome.httpError _ => false

/-- The tail of `_execute_trip_planning`: `if not result.get('success'):
raise HTTPException(500, result.get('error', 'Planning failed'))`, else build
the response dictionary (`plan` reads the mandatory `final_response` key,
present on every success dictionary). -/
def wrapResult (r : RunOutput) : ExecOutcome :=
  if r.success then
    ExecOutcome.ok
      ⟨true, r.final_response.getD "", r.messages, r.workflow_steps,
       r.final_response, r.trip_type.getD "single_city"⟩
  else ExecOutcome.httpError ⟨500, r.error.getD "Planning failed"⟩

/-- The two request shapes accepted by the planner endpoints, discriminated
by the presence of the `trip_legs` key (`if 'trip_legs' in request:`). -/
inductive ReqShape where
  | multi (req : MultiCityTripPlanRequest)
  | single (req : TripPlanRequest)
deriving DecidableEq, Repr

/-- A raw request body: its shape plus the optional top-level `user_email`
key read by both endpoints. -/
structure RawRequest where
  shape : ReqShape
  user_email : Option String
deriving DecidableEq, Repr

/-- Truthiness of `user_email` (`if session and user_email:`): present and
non-empty. -/
def emailTruthy : Option String → Bool
  | some s => s ≠ ""
  | none => false

/-- Function `_execute_trip_planning` from `app.py`.  Parameters model its
environment: `apiKey` is `bool(os.getenv("OPENAI_API_KEY"))`, `env` the agent
capability, `db`/`expired` the database session contents and clock used by
`has_active_subscription`, `sessionPresent` the truthiness of the `session`
argument.  Returns the outcome plus the steps delivered to the
`progress_callback` and the agents invoked (both empty whenever the request
is rejected before planning starts). -/
def _execute_trip_planning (apiKey : Bool) (env : AgentEnv)
    (db : List Customer) (expired : String → Bool) (request : ReqShape)
    (sessionPresent : Bool) (user_email : Option String) (cb : CallbackSpec) :
    ExecOutcome × List WorkflowStep × List AgentName :=
  if !apiKey then
    (ExecOutcome.httpError
      ⟨500, "OPENAI_API_KEY not configured. Please set it in your environment."⟩,
     [], [])
  else
    match request with
    | ReqShape.multi req =>
        let v := validate_multi_city_trip req.trip_legs
        if !v.1 then (ExecOutcome.httpError ⟨400, v.2⟩, [], [])
        else if sessionPresent && emailTruthy user_email &&
            !(has_active_subscription db (user_email.getD "") expired) then
          (ExecOutcome.httpError
            ⟨403, "Multi-city trips require a premium subscription. Please upgrade to continue."⟩,
           [], [])
        else
          let r := run_multi_city_planning env cb req.trip_legs req.budget
            req.passengers
          (wrapResult r.1, r.2.1, r.2.2)
    | ReqShape.single req =>
        let r := run_travel_planning env cb (_format_trip_prompt req)
        (wrapResult r.1, r.2.1, r.2.2)

/-- Endpoint `plan_trip` (`POST /planner/plan_trip`): runs `_execute_trip_planning`
synchronously with the request session, the request's `user_email`, and no
progress callback. -/
def plan_trip (apiKey : Bool) (env : AgentEnv) (db : List Customer)
    (expired : String → Bool) (request : RawRequest) : ExecOutcome :=
  (_execute_trip_planning apiKey env db expired request.shape true
    request.user_email cbNone).1

/-! ### Streaming (plan_trip_stream) -/

/-- Events placed on the relay queue of `plan_trip_stream`. -/
inductive QEvent where
  | workflow_step (s : WorkflowStep)
  | final_result (r : ExecResult)
  | error (detail : String) (status_code : Option Nat)
  | complete
deriving DecidableEq, Repr

/-- How the blocking planning task ends inside `run_planner`: a normal
return, an `HTTPException`, or any other exception. -/
inductive BlockingOutcome where
  | ok (r : ExecResult)
  | httpExc (e : HTTPException)
  | exc (msg : String)
deriving DecidableEq, Repr

/-- The terminal event `run_planner` enqueues for a given blocking outcome:
`("final_result", result)` on success, `("error", {detail, status_code})` for
an `HTTPException`, `("error", {detail})` for any other exception. -/
def terminalEvent : BlockingOutcome → QEvent
  | BlockingOutcome.ok r => QEvent.final_result r
  | BlockingOutcome.httpExc e => QEvent.error e.detail (some e.status_code)
  | BlockingOutcome.exc m => QEvent.error ("Error planning trip: " ++ m) none

/-- Is the event one of the two terminal payloads (`final_result` or
`error`)? -/
def isTerminal : QEvent → Bool
  | QEvent.final_result _ => true
  | QEvent.error _ _ => true
  | _ => false

/-- Is the event the `complete` sentinel? -/
def isComplete : QEvent → Bool
  | QEvent.complete => true
  | _ => false

/-- The full FIFO content of the relay queue produced by `run_planner` in
`plan_trip_stream`: every step the progress callback relayed (in emission
order, enqueued while the blocking task runs), then the terminal payload from
the `try/except`, then — in the `finally:` block — the `("complete", None)`
sentinel. -/
def run_planner (steps : List WorkflowStep) (b : BlockingOutcome) :
    List QEvent :=
  steps.map QEvent.workflow_step ++ [terminalEvent b, QEvent.complete]

/-- The consumer loop `event_generator` of `plan_trip_stream`: dequeue; on
`complete` break without yielding; otherwise yield the event; after yielding
an `error` event break.  Returns the yielded events in order. -/
def event_generator : List QEvent → List QEvent
  | [] => []
  | QEvent.complete :: _ => []
  | QEvent.error d s :: _ => [QEvent.error d s]
  | e :: rest => e :: event_generator rest

/-- Convert the outcome of `_execute_trip_planning` (which only ever raises
`HTTPException`) into the blocking-task outcome seen by `run_planner`. -/
def blockingOf : ExecOutcome → BlockingOutcome
  | ExecOutcome.ok r => BlockingOutcome.ok r
  | ExecOutcome.httpError e => BlockingOutcome.httpExc e

/-- The relay-queue content for one streamed request: `run_planner` applied
to the steps the streaming callback relayed and to the blocking task's
outcome. -/
def plan_trip_stream_queue (apiKey : Bool) (env : AgentEnv)
    (db : List Customer) (expired : String → Bool) (request : RawRequest) :
    List QEvent :=
  let res := _execute_trip_planning apiKey env db expired request.shape true
    request.user_email cbStream
  run_planner res.2.1 (blockingOf res.1)

/-- Endpoint `plan_trip_stream` (`POST /planner/plan_trip_stream`): the sequence of
events the consumer loop delivers to the subscriber. -/
def plan_trip_stream (apiKey : Bool) (env : AgentEnv) (db : List Customer)
    (expired : String → Bool) (request : RawRequest) : List QEvent :=
  event_generator (plan_trip_stream_queue apiKey env db expired request)

/-! ### extract_messages (app_agents/travel_agents.py) -/

/-- A content block of an SDK message; `text = some t` models a block with a
`text` attribute. -/
structure ContentBlock where
  text : Option String
deriving DecidableEq, Repr

/-- The `content` attribute of an SDK message: either a list of blocks or any
other value (whose `str(...)` rendering is the carried string). -/
inductive PyContent where
  | str (s : String)
  | blocks (bs : List ContentBlock)
deriving DecidableEq, Repr

/-- A raw SDK message: `role = none` / `content = none` model a missing
attribute (`getattr(message, 'role', 'assistant')` / `hasattr(message,
'content')`). -/
structure RawMessage where
  role : Option String
  content : Option PyContent
deriving DecidableEq, Repr

/-- The raw result of `Runner.run_sync`: optional `final_output` (with `none`
and `some ""` both falsy) and optional `messages` attribute. -/
structure AgentResult where
  final_output : Option String
  messages : Option (List RawMessage)
deriving DecidableEq, Repr

/-- The transcript entries one raw message contributes in the `for message in
agent_result.messages:` loop of `extract_messages`. -/
def messageEntries (m : RawMessage) : List Message :=
  match m.content with
  | none => []
  | some (PyContent.blocks bs) =>
      bs.filterMap (fun b => b.text.map (fun t => ⟨m.role.getD "assistant", t⟩))
  | some (PyContent.str s) => [⟨m.role.getD "assistant", s⟩]

/-- The fallback `messages[-1]['content'] if messages else "No response generated"`. -/
def fallbackResponse (messages : List Message) : String :=
  match messages.getLast? with
  | some m => m.content
  | none => "No response generated"

/-- Function `extract_messages` from `app_agents/travel_agents.py` (the identical
nested function of both planning workflows): collect the transcript entries,
then compute `response_text = final_output if final_output else
(messages[-1]['content'] if messages else "No response generated")`. -/
def extract_messages (ar : AgentResult) : String × List Message :=
  let messages :=
    match ar.messages with
    | none => []
    | some ms => ms.foldl (fun acc m => acc ++ messageEntries m) []
  let response_text :=
    match ar.final_output with
    | some s => if s = "" then fallbackResponse messages else s
    | none => fallbackResponse messages
  (response_text, messages)

/-! ### search_hotels (tools/hotels_tool.py) -/

/-- One record of `sample_hotels.json` (prices and ratings kept exact as
rationals). -/
structure HotelRec where
  id : String
  name : String
  city : String
  rating : ℚ
  price_per_night : ℚ
  amenities : List String
  address : String
deriving DecidableEq, Repr

/-- A hotel as returned by `search_hotels`: the original record
(`hotel.copy()`) plus the added `total_cost` and `nights` keys. -/
structure HotelOut where
  base : HotelRec
  total_cost : ℚ
  nights : Int
deriving DecidableEq, Repr

/-- The night computation of `search_hotels`: `try: nights = (checkout -
checkin).days except: nights = 1`.  `parseDate` models
`datetime.fromisoformat` as the day ordinal of the parsed timestamp (`none`
when parsing raises), so `(checkout - checkin).days` is the difference of
ordinals. -/
def nightsBetween (parseDate : String → Option Int)
    (checkin_date checkout_date : String) : Int :=
  match parseDate checkin_date, parseDate checkout_date with
  | some checkin, some checkout => checkout - checkin
  | _, _ => 1

/-- Python's `str.lower()`: lower-case every character. -/
def pyLower (s : String) : String := ⟨s.data.map Char.toLower⟩

/-- Function `search_hotels` from `tools/hotels_tool.py`: filter the data file by city
(case-insensitively), compute the number of nights, attach `total_cost =
price_per_night * nights` and `nights` to each match, filter by `max_price`
(`max_price is None or total_cost <= max_price`), and sort by rating,
highest first. -/
def search_hotels (parseDate : String → Option Int) (hotels : List HotelRec)
    (city checkin_date checkout_date : String) (max_price : Option ℚ) :
    List HotelOut :=
  let matching := hotels.filter (fun h => pyLower h.city == pyLower city)
  let nights := nightsBetween parseDate checkin_date checkout_date
  let result := matching.filterMap (fun h =>
    let total_cost := h.price_per_night * (nights : ℚ)
    match max_price with
    | none => some ⟨h, total_cost, nights⟩
    | some mp =>
        if total_cost ≤ mp then some ⟨h, total_cost, nights⟩ else none)
  result.mergeSort (fun a b => decide (b.base.rating ≤ a.base.rating))

/-! ### Concrete fixtures used to instantiate the theorems -/

/-- A planner-stage outcome used as a concrete agent run. -/
def oP : AgentOutcome :=
  ⟨[WorkflowStep.hook ⟨"planner-step"⟩], [⟨"assistant", "planner says"⟩],
   "planner summary"⟩

/-- A flights-stage outcome used as a concrete agent run. -/
def oF : AgentOutcome :=
  ⟨[WorkflowStep.hook ⟨"flights-step"⟩], [⟨"assistant", "flights says"⟩],
   "flights summary"⟩

/-- A hotels-stage outcome used as a concrete agent run. -/
def oH : AgentOutcome :=
  ⟨[WorkflowStep.hook ⟨"hotels-step"⟩], [⟨"assistant", "hotels says"⟩],
   "hotels summary"⟩

/-- An itinerary-stage outcome used as a concrete agent run. -/
def oI : AgentOutcome :=
  ⟨[WorkflowStep.hook ⟨"itinerary-step"⟩], [⟨"assistant", "itinerary says"⟩],
   "itinerary summary"⟩

/-- A capability where all four agents succeed. -/
def envAllOk : AgentEnv := fun a _ =>
  match a with
  | AgentName.planner => AgentRun.ok oP
  | AgentName.flights => AgentRun.ok oF
  | AgentName.hotels => AgentRun.ok oH
  | AgentName.itinerary => AgentRun.ok oI

/-- A capability where the Planner stage raises immediately. -/
def envFailPlanner : AgentEnv := fun a _ =>
  match a with
  | AgentName.planner => AgentRun.fail "boom" []
  | AgentName.flights => AgentRun.ok oF
  | AgentName.hotels => AgentRun.ok oH
  | AgentName.itinerary => AgentRun.ok oI

/-- A capability where the Planner stage raises with a distinctive message
(used for the synchronous failure route). -/
def envBoom : AgentEnv := fun a _ =>
  match a with
  | AgentName.planner => AgentRun.fail "agent exploded" []
  | AgentName.flights => AgentRun.ok oF
  | AgentName.hotels => AgentRun.ok oH
  | AgentName.itinerary => AgentRun.ok oI

/-- A capability where the Flights stage raises after recording one step. -/
def envFailFlights : AgentEnv := fun a _ =>
  match a with
  | AgentName.planner => AgentRun.ok oP
  | AgentName.flights => AgentRun.fail "flights down" [WorkflowStep.hook ⟨"f-partial"⟩]
  | AgentName.hotels => AgentRun.ok oH
  | AgentName.itinerary => AgentRun.ok oI

/-- A capability where the Hotels stage raises after recording one step. -/
def envFailHotels : AgentEnv := fun a _ =>
  match a with
  | AgentName.planner => AgentRun.ok oP
  | AgentName.flights => AgentRun.ok oF
  | AgentName.hotels => AgentRun.fail "hotels down" [WorkflowStep.hook ⟨"h-partial"⟩]
  | AgentName.itinerary => AgentRun.ok oI

/-- A capability where the Itinerary stage raises after recording one step. -/
def envFailItinerary : AgentEnv := fun a _ =>
  match a with
  | AgentName.planner => AgentRun.ok oP
  | AgentName.flights => AgentRun.ok oF
  | AgentName.hotels => AgentRun.ok oH
  | AgentName.itinerary => AgentRun.fail "itinerary down" [WorkflowStep.hook ⟨"i-partial"⟩]

/-- The single-city example request of the spec. -/
def reqSingleW : TripPlanRequest :=
  ⟨"New York", "Los Angeles", "2025-12-10", "2025-12-15", 1500, 2⟩

/-- A valid two-leg round trip. -/
def legsValidW : List TripLeg :=
  [⟨"NYC", "LAX", "2025-01-15", 1⟩, ⟨"LAX", "NYC", "2025-01-20", 2⟩]

/-- A valid multi-city request. -/
def reqMultiW : MultiCityTripPlanRequest := ⟨legsValidW, 3000, 2⟩

/-- A one-leg list (violates the leg-count invariant). -/
def legsOneW : List TripLeg := [⟨"NYC", "LAX", "2025-01-15", 1⟩]

/-- A multi-city request with too few legs. -/
def reqMultiBadW : MultiCityTripPlanRequest := ⟨legsOneW, 1000, 1⟩

/-- Two legs that are continuous but do not return to the origin
(round-trip violation; the cities contain no digits). -/
def legsCexW : List TripLeg :=
  [⟨"NYC", "LAX", "2025-01-15", 1⟩, ⟨"LAX", "SFO", "2025-01-20", 2⟩]

/-- Two legs that return to the origin but are discontinuous
(leg 1 ends at LAX, leg 2 starts at SFO). -/
def legsDiscontW : List TripLeg :=
  [⟨"NYC", "LAX", "2025-01-15", 1⟩, ⟨"SFO", "NYC", "2025-01-20", 2⟩]

/-- A clock predicate for fixtures: nothing is expired. -/
def neverExpired : String → Bool := fun _ => false

/-- A customer on the free tier (no active premium subscription). -/
def freeCustomer : Customer := ⟨"user@example.com", "free", "free", none⟩

/-- The prompt of the single-city fixture request. -/
def uW : String := _format_trip_prompt reqSingleW

/-- The itinerary prompt of the all-success single-city fixture run. -/
def ipW : String := singleItineraryPrompt uW oF.response oH.response oP.response

/-- The success dictionary the all-success single-city fixture run yields. -/
def rWitness : ExecResult :=
  ⟨true, oI.response,
   oP.messages ++ (oF.messages ++ (oH.messages ++ oI.messages)),
   oP.steps ++ mkHandoff "PlannerAgent" "FlightsAgent" uW ::
     (oF.steps ++ mkHandoff "FlightsAgent" "HotelsAgent" uW ::
       (oH.steps ++ mkHandoff "HotelsAgent" "ItineraryAgent" ipW :: oI.steps)),
   some oI.response, "single_city"⟩

/-- A callback that always raises. -/
def cbRaising : CallbackSpec := ⟨true, fun _ => true⟩

/-- An agent result with a non-empty final output. -/
def arA : AgentResult :=
  ⟨some "final", some [⟨some "assistant", some (PyContent.str "draft")⟩]⟩

/-- An agent result with no final output but one transcript message. -/
def arB : AgentResult :=
  ⟨none, some [⟨some "user", some (PyContent.str "hello")⟩]⟩

/-- An agent result with an empty final output and no messages attribute. -/
def arC : AgentResult := ⟨some "", none⟩

/-- A sample hotel record. -/
def hotelW : HotelRec :=
  ⟨"H1", "Grand Hotel", "Los Angeles", 9, 200, ["wifi"], "1 Main St"⟩

/-- A date parser fixture: knows two dates, fails on everything else. -/
def parseDateW : String → Option Int := fun s =>
  if s = "2025-01-10" then some 10
  else if s = "2025-01-13" then some 13
  else none

/-- A one-customer table containing only a free-tier customer. -/
def dbFree : List Customer := [freeCustomer]

/-! ### Helper lemmas -/

theorem record_step_workflow_steps (cb : CallbackSpec) (s : RecState)
    (step : WorkflowStep) :
    (record_step cb s step).workflow_steps = s.workflow_steps ++ [step] := rfl

theorem recordAll_workflow_steps (cb : CallbackSpec) (l : List WorkflowStep)
    (s : RecState) :
    (recordAll cb s l).workflow_steps = s.workflow_steps ++ l := by
  induction l generalizing s with
  | nil => simp [recordAll]
  | cons a t ih =>
      simp only [recordAll, List.foldl_cons]
      have h := ih (record_step cb s a)
      simp only [recordAll] at h
      rw [h, record_step_workflow_steps]
      simp

theorem record_step_stream_emitted (s : RecState) (step : WorkflowStep) :
    (record_step cbStream s step).emitted = s.emitted ++ [step] := by
  simp [record_step, cbStream]

theorem recordAll_stream_emitted (l : List WorkflowStep) (s : RecState) :
    (recordAll cbStream s l).emitted = s.emitted ++ l := by
  induction l generalizing s with
  | nil => simp [recordAll]
  | cons a t ih =>
      simp only [recordAll, List.foldl_cons]
      have h := ih (record_step cbStream s a)
      simp only [recordAll] at h
      rw [h, record_step_stream_emitted]
      simp

theorem findDiscontinuity_none_iff :
    ∀ (legs : List TripLeg) (j : Nat),
      findDiscontinuity legs j = none ↔
        List.Chain' (fun a b => a.destination = b.origin) legs
  | [], _ => by simp [findDiscontinuity]
  | [_], _ => by simp [findDiscontinuity]
  | a :: b :: rest, j => by
      rw [findDiscontinuity]
      by_cases h : a.destination = b.origin
      · rw [if_neg (by simp [h]), findDiscontinuity_none_iff (b :: rest) (j + 1),
          List.chain'_cons]
        simp [h]
      · rw [if_pos (by simp [h])]
        simp [h, List.chain'_cons]

theorem legInvariants_intro (legs : List TripLeg) (h1 : 2 ≤ legs.length)
    (h2 : legs.length ≤ 4)
    (h3 : (legs.headD default).origin = (legs.getLastD default).destination)
    (h4 : findDiscontinuity legs 0 = none) : LegInvariants legs :=
  ⟨⟨h1, h2⟩, h3, (findDiscontinuity_none_iff legs 0).mp h4⟩

theorem findDiscontinuity_some :
    ∀ (legs : List TripLeg) (j i : Nat) (a b : TripLeg),
      findDiscontinuity legs j = some (i, a, b) →
      ∃ k, i = j + k ∧ legs[k]? = some a ∧ legs[k + 1]? = some b ∧
        a.destination ≠ b.origin
  | [], _, _, _, _, h => by simp [findDiscontinuity] at h
  | [_], _, _, _, _, h => by simp [findDiscontinuity] at h
  | x :: y :: rest, j, i, a, b, h => by
      rw [findDiscontinuity] at h
      by_cases hxy : x.destination = y.origin
      · simp only [hxy, ne_eq, not_true_eq_false, if_neg] at h
        obtain ⟨k, hk, ha, hb, hne⟩ :=
          findDiscontinuity_some (y :: rest) (j + 1) i a b h
        exact ⟨k + 1, by omega, by simpa using ha, by simpa using hb, hne⟩
      · simp only [hxy, ne_eq, not_false_iff, if_pos, Option.some.injEq,
          Prod.mk.injEq] at h
        obtain ⟨hi, hax, hby⟩ := h
        refine ⟨0, by omega, by simp [hax], by simp [hby], ?_⟩
        intro hc
        apply hxy
        rw [hax, hby]
        exact hc

theorem validate_fst_true_iff (legs : List TripLeg) :
    (validate_multi_city_trip legs).1 = true ↔ LegInvariants legs := by
  unfold validate_multi_city_trip LegInvariants
  split_ifs with h1 h2
  · simp only [Bool.false_eq_true, false_iff]
    intro hinv
    omega
  · simp only [Bool.false_eq_true, false_iff]
    intro hinv
    omega
  · by_cases h3 : (legs.headD default).origin = (legs.getLastD default).destination
    · rw [if_neg (by simp only [ne_eq, not_not]; exact h3)]
      cases hd : findDiscontinuity legs 0 with
      | none =>
          simp only [true_iff]
          exact ⟨⟨by omega, by omega⟩, h3,
            (findDiscontinuity_none_iff legs 0).mp hd⟩
      | some v =>
          obtain ⟨i, a, b⟩ := v
          simp only [Bool.false_eq_true, false_iff]
          intro hinv
          rw [(findDiscontinuity_none_iff legs 0).mpr hinv.2.2] at hd
          cases hd
    · rw [if_pos h3]
      simp only [Bool.false_eq_true, false_iff]
      intro hinv
      exact h3 hinv.2.1

theorem event_generator_cons_ws (s : WorkflowStep) (xs : List QEvent) :
    event_generator (QEvent.workflow_step s :: xs) =
      QEvent.workflow_step s :: event_generator xs := rfl

theorem event_generator_cons_final (r : ExecResult) (xs : List QEvent) :
    event_generator (QEvent.final_result r :: xs) =
      QEvent.final_result r :: event_generator xs := rfl

theorem event_generator_cons_error (d : String) (sc : Option Nat)
    (xs : List QEvent) :
    event_generator (QEvent.error d sc :: xs) = [QEvent.error d sc] := rfl

theorem event_generator_cons_complete (xs : List QEvent) :
    event_generator (QEvent.complete :: xs) = [] := rfl

theorem event_generator_ws_append (l : List WorkflowStep) (rest : List QEvent) :
    event_generator (l.map QEvent.workflow_step ++ rest) =
      l.map QEvent.workflow_step ++ event_generator rest := by
  induction l with
  | nil => simp
  | cons a t ih => simp [event_generator_cons_ws, ih]

theorem wrapResult_ok (ro : RunOutput) (r : ExecResult)
    (h : wrapResult ro = ExecOutcome.ok r) :
    ro.success = true ∧ r.workflow_steps = ro.workflow_steps ∧
      r.final_response = ro.final_response ∧ r.success = true := by
  unfold wrapResult at h
  by_cases hs : ro.success
  · rw [if_pos hs] at h
    cases h
    exact ⟨hs, rfl, rfl, rfl⟩
  · rw [if_neg hs] at h
    cases h

theorem wrapResult_fail (ro : RunOutput) (h : ro.success = false) :
    wrapResult ro = ExecOutcome.httpError ⟨500, ro.error.getD "Planning failed"⟩ := by
  unfold wrapResult
  rw [if_neg (by simp [h])]

theorem runPipeline_fail_planner (env : AgentEnv) (cb : CallbackSpec)
    (u : String) (ip : String → String → String → String → String)
    (tt : String) (e : String) (st : List WorkflowStep)
    (h1 : env AgentName.planner u = AgentRun.fail e st) :
    (runPipeline env cb u ip tt).1 = ⟨false, [], none, st, none, some e⟩ ∧
    (runPipeline env cb u ip tt).2.2 = [AgentName.planner] := by
  unfold runPipeline
  rw [h1]
  simp [failOutput, recordAll_workflow_steps]

theorem runPipeline_fail_flights (env : AgentEnv) (cb : CallbackSpec)
    (u : String) (ip : String → String → String → String → String)
    (tt : String) (o1 : AgentOutcome) (e : String) (st : List WorkflowStep)
    (h1 : env AgentName.planner u = AgentRun.ok o1)
    (h2 : env AgentName.flights u = AgentRun.fail e st) :
    (runPipeline env cb u ip tt).1 =
      ⟨false, o1.messages, none,
       o1.steps ++ mkHandoff "PlannerAgent" "FlightsAgent" u :: st,
       none, some e⟩ ∧
    (runPipeline env cb u ip tt).2.2 =
      [AgentName.planner, AgentName.flights] := by
  unfold runPipeline
  rw [h1, h2]
  simp [failOutput, recordAll_workflow_steps, record_step_workflow_steps]

theorem runPipeline_fail_hotels (env : AgentEnv) (cb : CallbackSpec)
    (u : String) (ip : String → String → String → String → String)
    (tt : String) (o1 o2 : AgentOutcome) (e : String)
    (st : List WorkflowStep)
    (h1 : env AgentName.planner u = AgentRun.ok o1)
    (h2 : env AgentName.flights u = AgentRun.ok o2)
    (h3 : env AgentName.hotels u = AgentRun.fail e st) :
    (runPipeline env cb u ip tt).1 =
      ⟨false, o1.messages ++ o2.messages, none,
       o1.steps ++ mkHandoff "PlannerAgent" "FlightsAgent" u ::
         (o2.steps ++ mkHandoff "FlightsAgent" "HotelsAgent" u :: st),
       none, some e⟩ ∧
    (runPipeline env cb u ip tt).2.2 =
      [AgentName.planner, AgentName.flights, AgentName.hotels] := by
  unfold runPipeline
  rw [h1, h2, h3]
  simp [failOutput, recordAll_workflow_steps, record_step_workflow_steps]

theorem runPipeline_fail_itinerary (env : AgentEnv) (cb : CallbackSpec)
    (u : String) (ip : String → String → String → String → String)
    (tt : String) (o1 o2 o3 : AgentOutcome) (e : String)
    (st : List WorkflowStep)
    (h1 : env AgentName.planner u = AgentRun.ok o1)
    (h2 : env AgentName.flights u = AgentRun.ok o2)
    (h3 : env AgentName.hotels u = AgentRun.ok o3)
    (h4 : env AgentName.itinerary (ip u o2.response o3.response o1.response) =
      AgentRun.fail e st) :
    (runPipeline env cb u ip tt).1 =
      ⟨false, o1.messages ++ (o2.messages ++ o3.messages), none,
       o1.steps ++ mkHandoff "PlannerAgent" "FlightsAgent" u ::
         (o2.steps ++ mkHandoff "FlightsAgent" "HotelsAgent" u ::
           (o3.steps ++ mkHandoff "HotelsAgent" "ItineraryAgent"
             (ip u o2.response o3.response o1.response) :: st)),
       none, some e⟩ ∧
    (runPipeline env cb u ip tt).2.2 =
      [AgentName.planner, AgentName.flights, AgentName.hotels,
       AgentName.itinerary] := by
  unfold runPipeline
  rw [h1, h2, h3]
  simp only []
  rw [h4]
  simp [failOutput, recordAll_workflow_steps, record_step_workflow_steps]

theorem runPipeline_all_ok (env : AgentEnv) (cb : CallbackSpec)
    (u : String) (ip : String → String → String → String → String)
    (tt : String) (o1 o2 o3 o4 : AgentOutcome)
    (h1 : env AgentName.planner u = AgentRun.ok o1)
    (h2 : env AgentName.flights u = AgentRun.ok o2)
    (h3 : env AgentName.hotels u = AgentRun.ok o3)
    (h4 : env AgentName.itinerary (ip u o2.response o3.response o1.response) =
      AgentRun.ok o4) :
    (runPipeline env cb u ip tt).1 =
      ⟨true, o1.messages ++ (o2.messages ++ (o3.messages ++ o4.messages)),
       some o4.response,
       o1.steps ++ mkHandoff "PlannerAgent" "FlightsAgent" u ::
         (o2.steps ++ mkHandoff "FlightsAgent" "HotelsAgent" u ::
           (o3.steps ++ mkHandoff "HotelsAgent" "ItineraryAgent"
             (ip u o2.response o3.response o1.response) :: o4.steps)),
       some tt, none⟩ ∧
    (runPipeline env cb u ip tt).2.2 =
      [AgentName.planner, AgentName.flights, AgentName.hotels,
       AgentName.itinerary] := by
  unfold runPipeline
  rw [h1, h2, h3]
  simp only []
  rw [h4]
  simp [recordAll_workflow_steps, record_step_workflow_steps]

theorem runPipeline_fst_cb_indep (env : AgentEnv) (cbA cbB : CallbackSpec)
    (u : String) (ip : String → String → String → String → String)
    (tt : String) :
    (runPipeline env cbA u ip tt).1 = (runPipeline env cbB u ip tt).1 := by
  cases h1 : env AgentName.planner u with
  | fail e st =>
      rw [(runPipeline_fail_planner env cbA u ip tt e st h1).1,
        (runPipeline_fail_planner env cbB u ip tt e st h1).1]
  | ok o1 =>
      cases h2 : env AgentName.flights u with
      | fail e st =>
          rw [(runPipeline_fail_flights env cbA u ip tt o1 e st h1 h2).1,
            (runPipeline_fail_flights env cbB u ip tt o1 e st h1 h2).1]
      | ok o2 =>
          cases h3 : env AgentName.hotels u with
          | fail e st =>
              rw [(runPipeline_fail_hotels env cbA u ip tt o1 o2 e st h1 h2 h3).1,
                (runPipeline_fail_hotels env cbB u ip tt o1 o2 e st h1 h2 h3).1]
          | ok o3 =>
              cases h4 : env AgentName.itinerary
                  (ip u o2.response o3.response o1.response) with
              | fail e st =>
                  rw [(runPipeline_fail_itinerary env cbA u ip tt o1 o2 o3 e st
                      h1 h2 h3 h4).1,
                    (runPipeline_fail_itinerary env cbB u ip tt o1 o2 o3 e st
                      h1 h2 h3 h4).1]
              | ok o4 =>
                  rw [(runPipeline_all_ok env cbA u ip tt o1 o2 o3 o4
                      h1 h2 h3 h4).1,
                    (runPipeline_all_ok env cbB u ip tt o1 o2 o3 o4
                      h1 h2 h3 h4).1]

theorem runPipeline_stream_emitted (env : AgentEnv) (u : String)
    (ip : String → String → String → String → String) (tt : String) :
    (runPipeline env cbStream u ip tt).2.1 =
      (runPipeline env cbStream u ip tt).1.workflow_steps := by
  unfold runPipeline
  cases h1 : env AgentName.planner u with
  | fail e st =>
      simp [failOutput, recordAll_workflow_steps, recordAll_stream_emitted]
  | ok o1 =>
      cases h2 : env AgentName.flights u with
      | fail e st =>
          simp [failOutput, recordAll_workflow_steps, recordAll_stream_emitted,
            record_step_workflow_steps, record_step_stream_emitted]
      | ok o2 =>
          cases h3 : env AgentName.hotels u with
          | fail e st =>
              simp [failOutput, recordAll_workflow_steps,
                recordAll_stream_emitted, record_step_workflow_steps,
                record_step_stream_emitted]
          | ok o3 =>
              simp only []
              cases h4 : env AgentName.itinerary
                  (ip u o2.response o3.response o1.response) with
              | fail e st =>
                  simp [failOutput, recordAll_workflow_steps,
                    recordAll_stream_emitted, record_step_workflow_steps,
                    record_step_stream_emitted]
              | ok o4 =>
                  simp [recordAll_workflow_steps, recordAll_stream_emitted,
                    record_step_workflow_steps, record_step_stream_emitted]

theorem exec_fst_cb_indep (apiKey : Bool) (env : AgentEnv) (db : List Customer)
    (expired : String → Bool) (shape : ReqShape) (sp : Bool)
    (ue : Option String) (cbA cbB : CallbackSpec) :
    (_execute_trip_planning apiKey env db expired shape sp ue cbA).1 =
    (_execute_trip_planning apiKey env db expired shape sp ue cbB).1 := by
  cases shape <;>
    simp only [_execute_trip_planning, run_travel_planning,
      run_multi_city_planning] <;>
    split_ifs <;>
    simp [runPipeline_fst_cb_indep env cbA cbB]

theorem exec_ok_stream_emitted (apiKey : Bool) (env : AgentEnv)
    (db : List Customer) (expired : String → Bool) (shape : ReqShape)
    (sp : Bool) (ue : Option String) (r : ExecResult)
    (h : (_execute_trip_planning apiKey env db expired shape sp ue cbStream).1 =
      ExecOutcome.ok r) :
    (_execute_trip_planning apiKey env db expired shape sp ue cbStream).2.1 =
      r.workflow_steps := by
  cases apiKey with
  | false => simp [_execute_trip_planning] at h
  | true =>
      cases shape with
      | multi req =>
          by_cases hv : (validate_multi_city_trip req.trip_legs).1 = true
          · by_cases hg : (sp && emailTruthy ue &&
                !(has_active_subscription db (ue.getD "") expired)) = true
            · simp [_execute_trip_planning, hv, hg] at h
            · simp only [_execute_trip_planning, run_multi_city_planning,
                Bool.not_true, Bool.false_eq_true, if_false, hv, hg,
                Bool.not_false, if_true] at h ⊢
              obtain ⟨_, hsteps, _, _⟩ := wrapResult_ok _ r h
              rw [runPipeline_stream_emitted, hsteps]
          · simp [_execute_trip_planning, hv] at h
      | single req =>
          simp only [_execute_trip_planning, run_travel_planning,
            Bool.not_true, Bool.false_eq_true, if_false] at h ⊢
          obtain ⟨_, hsteps, _, _⟩ := wrapResult_ok _ r h
          rw [runPipeline_stream_emitted, hsteps]

/-! ### Claims -/

/-- C1: a multi-city request whose trip legs violate any of the three
invariants (leg count outside 2..4, first origin differing from last
destination, or an adjacent-pair discontinuity) is marked invalid by
`validate_multi_city_trip` and rejected by `_execute_trip_planning` with a
400 before `run_multi_city_planning` is invoked — no agent runs and zero
workflow steps are recorded; legs satisfying all three invariants pass
validation. -/
theorem C1_invalid_legs_rejected_before_any_agent (env : AgentEnv)
    (db : List Customer) (expired : String → Bool)
    (req : MultiCityTripPlanRequest) (sp : Bool) (ue : Option String)
    (cb : CallbackSpec) :
    (¬ LegInvariants req.trip_legs →
      (validate_multi_city_trip req.trip_legs).1 = false ∧
      _execute_trip_planning true env db expired (ReqShape.multi req) sp ue cb =
        (ExecOutcome.httpError
          ⟨400, (validate_multi_city_trip req.trip_legs).2⟩, [], [])) ∧
    (LegInvariants req.trip_legs →
      (validate_multi_city_trip req.trip_legs).1 = true) := by
  constructor
  · intro hinv
    have hf : (validate_multi_city_trip req.trip_legs).1 = false := by
      cases hb : (validate_multi_city_trip req.trip_legs).1
      · rfl
      · exact absurd ((validate_fst_true_iff req.trip_legs).mp hb) hinv
    refine ⟨hf, ?_⟩
    simp [_execute_trip_planning, hf]
  · intro hinv
    exact (validate_fst_true_iff req.trip_legs).mpr hinv

/-- Witness for C1: a one-leg request is rejected with the validation
message and no run; a continuous two-leg round trip passes validation. -/
theorem C1_witness :
    ((validate_multi_city_trip reqMultiBadW.trip_legs).1 = false ∧
      _execute_trip_planning true envAllOk [] neverExpired
          (ReqShape.multi reqMultiBadW) true none cbNone =
        (ExecOutcome.httpError
          ⟨400, (validate_multi_city_trip reqMultiBadW.trip_legs).2⟩, [], [])) ∧
    (validate_multi_city_trip reqMultiW.trip_legs).1 = true :=
  ⟨(C1_invalid_legs_rejected_before_any_agent envAllOk [] neverExpired
      reqMultiBadW true none cbNone).1
      (fun h => absurd h.1.1 (by decide)),
   (C1_invalid_legs_rejected_before_any_agent envAllOk [] neverExpired
      reqMultiW true none cbNone).2
      (legInvariants_intro _ (by decide) (by decide) (by decide) (by decide))⟩

/-- C2: in every run of `run_travel_planning` or `run_multi_city_planning`,
an exception in any stage stops the remaining stages (no later agent is
consulted), and the returned dictionary has `success = false`, `error` equal
to the exception's description, and `workflow_steps` / `messages` equal to
exactly what was accumulated up to the failure point. -/
theorem C2_stage_failure_preserves_partial_results :
    (∀ (env : AgentEnv) (cb : CallbackSpec) (u e : String)
        (st : List WorkflowStep),
      env AgentName.planner u = AgentRun.fail e st →
      (run_travel_planning env cb u).1 = ⟨false, [], none, st, none, some e⟩ ∧
      (run_travel_planning env cb u).2.2 = [AgentName.planner]) ∧
    (∀ (env : AgentEnv) (cb : CallbackSpec) (u e : String)
        (o1 : AgentOutcome) (st : List WorkflowStep),
      env AgentName.planner u = AgentRun.ok o1 →
      env AgentName.flights u = AgentRun.fail e st →
      (run_travel_planning env cb u).1 =
        ⟨false, o1.messages, none,
         o1.steps ++ mkHandoff "PlannerAgent" "FlightsAgent" u :: st,
         none, some e⟩ ∧
      (run_travel_planning env cb u).2.2 =
        [AgentName.planner, AgentName.flights]) ∧
    (∀ (env : AgentEnv) (cb : CallbackSpec) (u e : String)
        (o1 o2 : AgentOutcome) (st : List WorkflowStep),
      env AgentName.planner u = AgentRun.ok o1 →
      env AgentName.flights u = AgentRun.ok o2 →
      env AgentName.hotels u = AgentRun.fail e st →
      (run_travel_planning env cb u).1 =
        ⟨false, o1.messages ++ o2.messages, none,
         o1.steps ++ mkHandoff "PlannerAgent" "FlightsAgent" u ::
           (o2.steps ++ mkHandoff "FlightsAgent" "HotelsAgent" u :: st),
         none, some e⟩ ∧
      (run_travel_planning env cb u).2.2 =
        [AgentName.planner, AgentName.flights, AgentName.hotels]) ∧
    (∀ (env : AgentEnv) (cb : CallbackSpec) (u e : String)
        (o1 o2 o3 : AgentOutcome) (st : List WorkflowStep),
      env AgentName.planner u = AgentRun.ok o1 →
      env AgentName.flights u = AgentRun.ok o2 →
      env AgentName.hotels u = AgentRun.ok o3 →
      env AgentName.itinerary
          (singleItineraryPrompt u o2.response o3.response o1.response) =
        AgentRun.fail e st →
      (run_travel_planning env cb u).1 =
        ⟨false, o1.messages ++ (o2.messages ++ o3.messages), none,
         o1.steps ++ mkHandoff "PlannerAgent" "FlightsAgent" u ::
           (o2.steps ++ mkHandoff "FlightsAgent" "HotelsAgent" u ::
             (o3.steps ++ mkHandoff "HotelsAgent" "ItineraryAgent"
               (singleItineraryPrompt u o2.response o3.response o1.response) ::
               st)),
         none, some e⟩ ∧
      (run_travel_planning env cb u).2.2 =
        [AgentName.planner, AgentName.flights, AgentName.hotels,
         AgentName.itinerary]) ∧
    (∀ (env : AgentEnv) (cb : CallbackSpec) (legs : List TripLeg) (b : ℚ)
        (p : Int) (e : String) (st : List WorkflowStep),
      env AgentName.planner (multiCityUserRequest legs b p) =
        AgentRun.fail e st →
      (run_multi_city_planning env cb legs b p).1 =
        ⟨false, [], none, st, none, some e⟩ ∧
      (run_multi_city_planning env cb legs b p).2.2 = [AgentName.planner]) ∧
    (∀ (env : AgentEnv) (cb : CallbackSpec) (legs : List TripLeg) (b : ℚ)
        (p : Int) (e : String) (o1 : AgentOutcome) (st : List WorkflowStep),
      env AgentName.planner (multiCityUserRequest legs b p) = AgentRun.ok o1 →
      env AgentName.flights (multiCityUserRequest legs b p) =
        AgentRun.fail e st →
      (run_multi_city_planning env cb legs b p).1 =
        ⟨false, o1.messages, none,
         o1.steps ++ mkHandoff "PlannerAgent" "FlightsAgent"
           (multiCityUserRequest legs b p) :: st,
         none, some e⟩ ∧
      (run_multi_city_planning env cb legs b p).2.2 =
        [AgentName.planner, AgentName.flights]) ∧
    (∀ (env : AgentEnv) (cb : CallbackSpec) (legs : List TripLeg) (b : ℚ)
        (p : Int) (e : String) (o1 o2 : AgentOutcome)
        (st : List WorkflowStep),
      env AgentName.planner (multiCityUserRequest legs b p) = AgentRun.ok o1 →
      env AgentName.flights (multiCityUserRequest legs b p) = AgentRun.ok o2 →
      env AgentName.hotels (multiCityUserRequest legs b p) =
        AgentRun.fail e st →
      (run_multi_city_planning env cb legs b p).1 =
        ⟨false, o1.messages ++ o2.messages, none,
         o1.steps ++ mkHandoff "PlannerAgent" "FlightsAgent"
             (multiCityUserRequest legs b p) ::
           (o2.steps ++ mkHandoff "FlightsAgent" "HotelsAgent"
             (multiCityUserRequest legs b p) :: st),
         none, some e⟩ ∧
      (run_multi_city_planning env cb legs b p).2.2 =
        [AgentName.planner, AgentName.flights, AgentName.hotels]) ∧
    (∀ (env : AgentEnv) (cb : CallbackSpec) (legs : List TripLeg) (b : ℚ)
        (p : Int) (e : String) (o1 o2 o3 : AgentOutcome)
        (st : List WorkflowStep),
      env AgentName.planner (multiCityUserRequest legs b p) = AgentRun.ok o1 →
      env AgentName.flights (multiCityUserRequest legs b p) = AgentRun.ok o2 →
      env AgentName.hotels (multiCityUserRequest legs b p) = AgentRun.ok o3 →
      env AgentName.itinerary
          (multiItineraryPrompt b (multiCityUserRequest legs b p)
            o2.response o3.response o1.response) =
        AgentRun.fail e st →
      (run_multi_city_planning env cb legs b p).1 =
        ⟨false, o1.messages ++ (o2.messages ++ o3.messages), none,
         o1.steps ++ mkHandoff "PlannerAgent" "FlightsAgent"
             (multiCityUserRequest legs b p) ::
           (o2.steps ++ mkHandoff "FlightsAgent" "HotelsAgent"
               (multiCityUserRequest legs b p) ::
             (o3.steps ++ mkHandoff "HotelsAgent" "ItineraryAgent"
               (multiItineraryPrompt b (multiCityUserRequest legs b p)
                 o2.response o3.response o1.response) :: st)),
         none, some e⟩ ∧
      (run_multi_city_planning env cb legs b p).2.2 =
        [AgentName.planner, AgentName.flights, AgentName.hotels,
         AgentName.itinerary]) :=
  ⟨fun env cb u e st h1 =>
      runPipeline_fail_planner env cb u singleItineraryPrompt "single_city" e st h1,
   fun env cb u e o1 st h1 h2 =>
      runPipeline_fail_flights env cb u singleItineraryPrompt "single_city" o1 e st h1 h2,
   fun env cb u e o1 o2 st h1 h2 h3 =>
      runPipeline_fail_hotels env cb u singleItineraryPrompt "single_city" o1 o2 e st h1 h2 h3,
   fun env cb u e o1 o2 o3 st h1 h2 h3 h4 =>
      runPipeline_fail_itinerary env cb u singleItineraryPrompt "single_city" o1 o2 o3 e st h1 h2 h3 h4,
   fun env cb legs b p e st h1 =>
      runPipeline_fail_planner env cb (multiCityUserRequest legs b p)
        (multiItineraryPrompt b) "multi_city" e st h1,
   fun env cb legs b p e o1 st h1 h2 =>
      runPipeline_fail_flights env cb (multiCityUserRequest legs b p)
        (multiItineraryPrompt b) "multi_city" o1 e st h1 h2,
   fun env cb legs b p e o1 o2 st h1 h2 h3 =>
      runPipeline_fail_hotels env cb (multiCityUserRequest legs b p)
        (multiItineraryPrompt b) "multi_city" o1 o2 e st h1 h2 h3,
   fun env cb legs b p e o1 o2 o3 st h1 h2 h3 h4 =>
      runPipeline_fail_itinerary env cb (multiCityUserRequest legs b p)
        (multiItineraryPrompt b) "multi_city" o1 o2 o3 e st h1 h2 h3 h4⟩

/-- Witness for C2: concrete runs failing at each of the four stages, for
both the single-city and the multi-city pipeline. -/
theorem C2_witness :
    (run_travel_planning envFailPlanner cbNone "u").1 =
      ⟨false, [], none, [], none, some "boom"⟩ ∧
    (run_travel_planning envFailFlights cbNone "u").1 =
      ⟨false, oP.messages, none,
       oP.steps ++ mkHandoff "PlannerAgent" "FlightsAgent" "u" ::
         [WorkflowStep.hook ⟨"f-partial"⟩],
       none, some "flights down"⟩ ∧
    (run_travel_planning envFailHotels cbNone "u").1 =
      ⟨false, oP.messages ++ oF.messages, none,
       oP.steps ++ mkHandoff "PlannerAgent" "FlightsAgent" "u" ::
         (oF.steps ++ mkHandoff "FlightsAgent" "HotelsAgent" "u" ::
           [WorkflowStep.hook ⟨"h-partial"⟩]),
       none, some "hotels down"⟩ ∧
    (run_travel_planning envFailItinerary cbNone "u").1 =
      ⟨false, oP.messages ++ (oF.messages ++ oH.messages), none,
       oP.steps ++ mkHandoff "PlannerAgent" "FlightsAgent" "u" ::
         (oF.steps ++ mkHandoff "FlightsAgent" "HotelsAgent" "u" ::
           (oH.steps ++ mkHandoff "HotelsAgent" "ItineraryAgent"
             (singleItineraryPrompt "u" oF.response oH.response oP.response) ::
             [WorkflowStep.hook ⟨"i-partial"⟩])),
       none, some "itinerary down"⟩ ∧
    (run_multi_city_planning envFailPlanner cbNone legsValidW 3000 2).1 =
      ⟨false, [], none, [], none, some "boom"⟩ ∧
    (run_multi_city_planning envFailFlights cbNone legsValidW 3000 2).1 =
      ⟨false, oP.messages, none,
       oP.steps ++ mkHandoff "PlannerAgent" "FlightsAgent"
         (multiCityUserRequest legsValidW 3000 2) ::
         [WorkflowStep.hook ⟨"f-partial"⟩],
       none, some "flights down"⟩ ∧
    (run_multi_city_planning envFailHotels cbNone legsValidW 3000 2).1 =
      ⟨false, oP.messages ++ oF.messages, none,
       oP.steps ++ mkHandoff "PlannerAgent" "FlightsAgent"
           (multiCityUserRequest legsValidW 3000 2) ::
         (oF.steps ++ mkHandoff "FlightsAgent" "HotelsAgent"
           (multiCityUserRequest legsValidW 3000 2) ::
           [WorkflowStep.hook ⟨"h-partial"⟩]),
       none, some "hotels down"⟩ ∧
    (run_multi_city_planning envFailItinerary cbNone legsValidW 3000 2).1 =
      ⟨false, oP.messages ++ (oF.messages ++ oH.messages), none,
       oP.steps ++ mkHandoff "PlannerAgent" "FlightsAgent"
           (multiCityUserRequest legsValidW 3000 2) ::
         (oF.steps ++ mkHandoff "FlightsAgent" "HotelsAgent"
             (multiCityUserRequest legsValidW 3000 2) ::
           (oH.steps ++ mkHandoff "HotelsAgent" "ItineraryAgent"
             (multiItineraryPrompt 3000
               (multiCityUserRequest legsValidW 3000 2)
               oF.response oH.response oP.response) ::
             [WorkflowStep.hook ⟨"i-partial"⟩])),
       none, some "itinerary down"⟩ :=
  ⟨(C2_stage_failure_preserves_partial_results.1 envFailPlanner cbNone "u"
      "boom" [] rfl).1,
   (C2_stage_failure_preserves_partial_results.2.1 envFailFlights cbNone "u"
      "flights down" oP [WorkflowStep.hook ⟨"f-partial"⟩] rfl rfl).1,
   (C2_stage_failure_preserves_partial_results.2.2.1 envFailHotels cbNone "u"
      "hotels down" oP oF [WorkflowStep.hook ⟨"h-partial"⟩] rfl rfl rfl).1,
   (C2_stage_failure_preserves_partial_results.2.2.2.1 envFailItinerary cbNone
      "u" "itinerary down" oP oF oH [WorkflowStep.hook ⟨"i-partial"⟩]
      rfl rfl rfl rfl).1,
   (C2_stage_failure_preserves_partial_results.2.2.2.2.1 envFailPlanner cbNone
      legsValidW 3000 2 "boom" [] rfl).1,
   (C2_stage_failure_preserves_partial_results.2.2.2.2.2.1 envFailFlights
      cbNone legsValidW 3000 2 "flights down" oP
      [WorkflowStep.hook ⟨"f-partial"⟩] rfl rfl).1,
   (C2_stage_failure_preserves_partial_results.2.2.2.2.2.2.1 envFailHotels
      cbNone legsValidW 3000 2 "hotels down" oP oF
      [WorkflowStep.hook ⟨"h-partial"⟩] rfl rfl rfl).1,
   (C2_stage_failure_preserves_partial_results.2.2.2.2.2.2.2 envFailItinerary
      cbNone legsValidW 3000 2 "itinerary down" oP oF oH
      [WorkflowStep.hook ⟨"i-partial"⟩] rfl rfl rfl rfl).1⟩

/-- C3: every run of the `plan_trip_stream` worker enqueues exactly one
`complete` sentinel and exactly one terminal payload (`final_result` or
`error`), with the sentinel enqueued right after the terminal payload,
whether the blocking planning task returns normally, raises an
`HTTPException`, or raises any other exception; the consumer loop stops
yielding after dequeuing `complete` or after yielding an `error` event
(events enqueued later are never yielded). -/
theorem C3_single_complete_sentinel (steps : List WorkflowStep)
    (b : BlockingOutcome) :
    (run_planner steps b).countP isComplete = 1 ∧
    (run_planner steps b).countP isTerminal = 1 ∧
    run_planner steps b =
      steps.map QEvent.workflow_step ++ [terminalEvent b, QEvent.complete] ∧
    isTerminal (terminalEvent b) = true ∧
    event_generator (run_planner steps b) =
      steps.map QEvent.workflow_step ++
        (match b with
         | BlockingOutcome.ok r => [QEvent.final_result r]
         | BlockingOutcome.httpExc e =>
             [QEvent.error e.detail (some e.status_code)]
         | BlockingOutcome.exc m =>
             [QEvent.error ("Error planning trip: " ++ m) none]) ∧
    (∀ extra : List QEvent,
      event_generator (run_planner steps b ++ extra) =
        event_generator (run_planner steps b)) := by
  have hmap : (steps.map QEvent.workflow_step).countP isComplete = 0 := by
    rw [List.countP_eq_zero]
    intro a ha
    obtain ⟨s, _, rfl⟩ := List.mem_map.mp ha
    simp [isComplete]
  have hmapT : (steps.map QEvent.workflow_step).countP isTerminal = 0 := by
    rw [List.countP_eq_zero]
    intro a ha
    obtain ⟨s, _, rfl⟩ := List.mem_map.mp ha
    simp [isTerminal]
  refine ⟨?_, ?_, rfl, ?_, ?_, ?_⟩
  · rw [run_planner, List.countP_append, hmap]
    cases b <;> rfl
  · rw [run_planner, List.countP_append, hmapT]
    cases b <;> rfl
  · cases b <;> rfl
  · cases b <;>
      rw [run_planner, event_generator_ws_append] <;> rfl
  · intro extra
    cases b <;>
      rw [run_planner, List.append_assoc, event_generator_ws_append,
        event_generator_ws_append] <;> rfl

/-- C4: with the agent-execution capability held fixed, the streaming
endpoint and the synchronous endpoint compute the identical outcome (same
success dictionary — hence same `final_response`, `trip_type` and success —
or the identical `HTTPException`); on success the stream delivers exactly
the synchronous run's `workflow_steps` log as `workflow_step` events, each
once, in order, followed by the `final_result`; on failure it delivers the
relayed steps followed by the terminal `error` event. -/
theorem C4_stream_matches_synchronous_run (env : AgentEnv)
    (db : List Customer) (expired : String → Bool) (request : RawRequest) :
    ((_execute_trip_planning true env db expired request.shape true
        request.user_email cbStream).1 =
      (_execute_trip_planning true env db expired request.shape true
        request.user_email cbNone).1) ∧
    (∀ r, plan_trip true env db expired request = ExecOutcome.ok r →
      plan_trip_stream true env db expired request =
        r.workflow_steps.map QEvent.workflow_step ++
          [QEvent.final_result r]) ∧
    (∀ e, plan_trip true env db expired request = ExecOutcome.httpError e →
      plan_trip_stream true env db expired request =
        (_execute_trip_planning true env db expired request.shape true
            request.user_email cbStream).2.1.map QEvent.workflow_step ++
          [QEvent.error e.detail (some e.status_code)]) := by
  have hind := exec_fst_cb_indep true env db expired request.shape true
    request.user_email cbStream cbNone
  refine ⟨hind, ?_, ?_⟩
  · intro r h
    have hs : (_execute_trip_planning true env db expired request.shape true
        request.user_email cbStream).1 = ExecOutcome.ok r := by
      rw [hind]; exact h
    have he := exec_ok_stream_emitted true env db expired request.shape true
      request.user_email r hs
    simp only [plan_trip_stream, plan_trip_stream_queue]
    rw [he, hs, run_planner, event_generator_ws_append]
    rfl
  · intro e h
    have hs : (_execute_trip_planning true env db expired request.shape true
        request.user_email cbStream).1 = ExecOutcome.httpError e := by
      rw [hind]; exact h
    simp only [plan_trip_stream, plan_trip_stream_queue]
    rw [hs, run_planner, event_generator_ws_append]
    rfl

/-- Witness for C4: the all-success single-city run and a planner-failure
run, with their full streamed event sequences. -/
theorem C4_witness :
    plan_trip true envAllOk [] neverExpired
        ⟨ReqShape.single reqSingleW, none⟩ = ExecOutcome.ok rWitness ∧
    plan_trip_stream true envAllOk [] neverExpired
        ⟨ReqShape.single reqSingleW, none⟩ =
      rWitness.workflow_steps.map QEvent.workflow_step ++
        [QEvent.final_result rWitness] ∧
    plan_trip true envFailPlanner [] neverExpired
        ⟨ReqShape.single reqSingleW, none⟩ =
      ExecOutcome.httpError ⟨500, "boom"⟩ ∧
    plan_trip_stream true envFailPlanner [] neverExpired
        ⟨ReqShape.single reqSingleW, none⟩ =
      [QEvent.error "boom" (some 500)] := by
  have hok : plan_trip true envAllOk [] neverExpired
      ⟨ReqShape.single reqSingleW, none⟩ = ExecOutcome.ok rWitness := rfl
  have hfail : plan_trip true envFailPlanner [] neverExpired
      ⟨ReqShape.single reqSingleW, none⟩ =
      ExecOutcome.httpError ⟨500, "boom"⟩ := rfl
  refine ⟨hok, ?_, hfail, ?_⟩
  · exact (C4_stream_matches_synchronous_run envAllOk [] neverExpired
      ⟨ReqShape.single reqSingleW, none⟩).2.1 rWitness hok
  · have h := (C4_stream_matches_synchronous_run envFailPlanner [] neverExpired
      ⟨ReqShape.single reqSingleW, none⟩).2.2 ⟨500, "boom"⟩ hfail
    rw [h]
    rfl

/-- C5: `record_step` appends the step to the in-memory `workflow_steps` log
unconditionally, and a callback exception is swallowed: even when the
attached callback raises on the step, the call still returns (no
propagation), the log still contains the step, and the step is simply not
delivered. -/
theorem C5_record_step_appends_and_swallows (cb : CallbackSpec)
    (s : RecState) (step : WorkflowStep) :
    (record_step cb s step).workflow_steps = s.workflow_steps ++ [step] ∧
    (cb.raises step = true →
      (record_step cb s step).workflow_steps = s.workflow_steps ++ [step] ∧
      (record_step cb s step).emitted = s.emitted) := by
  refine ⟨rfl, fun hr => ⟨rfl, ?_⟩⟩
  simp [record_step, hr]

/-- Witness for C5: an always-raising callback still leaves the step in the
log and delivers nothing. -/
theorem C5_witness :
    (record_step cbRaising ⟨[], []⟩ (WorkflowStep.hook ⟨"x"⟩)).workflow_steps =
      [WorkflowStep.hook ⟨"x"⟩] ∧
    (record_step cbRaising ⟨[], []⟩ (WorkflowStep.hook ⟨"x"⟩)).emitted = [] := by
  have h := (C5_record_step_appends_and_swallows cbRaising ⟨[], []⟩
    (WorkflowStep.hook ⟨"x"⟩)).2 rfl
  exact ⟨h.1, h.2⟩

/-- C6: a multi-city request arriving with a caller identity (session and
non-empty `user_email`) whose caller has no active subscription is rejected
with the distinct 403 "subscription required" error before
`run_multi_city_planning` is called — no agent is consulted and no workflow
step is recorded; the check sits strictly after validation (an invalid
request gets the 400 validation error even for an unsubscribed caller) and
strictly before any agent runs. -/
theorem C6_subscription_gate_for_multi_city (env : AgentEnv)
    (db : List Customer) (expired : String → Bool)
    (req : MultiCityTripPlanRequest) (e : String) (cb : CallbackSpec)
    (hv : LegInvariants req.trip_legs) (he : e ≠ "")
    (hsub : has_active_subscription db e expired = false) :
    _execute_trip_planning true env db expired (ReqShape.multi req) true
        (some e) cb =
      (ExecOutcome.httpError
        ⟨403, "Multi-city trips require a premium subscription. Please upgrade to continue."⟩,
       [], []) ∧
    (validate_multi_city_trip req.trip_legs).1 = true ∧
    (∀ req2 : MultiCityTripPlanRequest, ¬ LegInvariants req2.trip_legs →
      _execute_trip_planning true env db expired (ReqShape.multi req2) true
          (some e) cb =
        (ExecOutcome.httpError
          ⟨400, (validate_multi_city_trip req2.trip_legs).2⟩, [], [])) := by
  have hval : (validate_multi_city_trip req.trip_legs).1 = true :=
    (validate_fst_true_iff req.trip_legs).mpr hv
  refine ⟨?_, hval, ?_⟩
  · simp [_execute_trip_planning, hval, emailTruthy, he, hsub]
  · intro req2 hinv
    have hf : (validate_multi_city_trip req2.trip_legs).1 = false := by
      cases hb : (validate_multi_city_trip req2.trip_legs).1
      · rfl
      · exact absurd ((validate_fst_true_iff req2.trip_legs).mp hb) hinv
    simp [_execute_trip_planning, hf]

/-- Witness for C6: a free-tier customer requesting a valid multi-city trip
is rejected with the 403 subscription error before any agent runs, while an
invalid request from the same caller still gets the 400 validation error. -/
theorem C6_witness :
    _execute_trip_planning true envAllOk dbFree neverExpired
        (ReqShape.multi reqMultiW) true (some "user@example.com") cbNone =
      (ExecOutcome.httpError
        ⟨403, "Multi-city trips require a premium subscription. Please upgrade to continue."⟩,
       [], []) ∧
    _execute_trip_planning true envAllOk dbFree neverExpired
        (ReqShape.multi reqMultiBadW) true (some "user@example.com") cbNone =
      (ExecOutcome.httpError
        ⟨400, (validate_multi_city_trip reqMultiBadW.trip_legs).2⟩, [], []) := by
  have h := C6_subscription_gate_for_multi_city envAllOk dbFree neverExpired
    reqMultiW "user@example.com" cbNone
    (legInvariants_intro _ (by decide) (by decide) (by decide) (by decide))
    (by decide) rfl
  exact ⟨h.1, h.2.2 reqMultiBadW (fun hin => absurd hin.1.1 (by decide))⟩

/-- Counterexample to C7 as stated: on this failing run the synchronous
`plan_trip` caller does not receive a structured result carrying a `success`
flag — the endpoint raises an `HTTPException` (status 500 with only a
`detail` string), which carries no `success` field at all. -/
theorem C7_counterexample :
    plan_trip true envBoom [] neverExpired
        ⟨ReqShape.single reqSingleW, none⟩ =
      ExecOutcome.httpError ⟨500, "agent exploded"⟩ ∧
    carriesSuccessFlag
      (plan_trip true envBoom [] neverExpired
        ⟨ReqShape.single reqSingleW, none⟩) = false := ⟨rfl, rfl⟩

/-- C7 amended: when the orchestration run behind `plan_trip` fails (its
planning result has `success = false`), the caller receives a single
`HTTPException` with status 500 whose detail is the human-readable error
string of the failed run (`'Planning failed'` when the run recorded none);
no `success`-flagged body is returned on failure. -/
theorem C7_amended_failure_becomes_http_500 (env : AgentEnv)
    (db : List Customer) (expired : String → Bool) (request : RawRequest) :
    (∀ req, request.shape = ReqShape.single req →
      (run_travel_planning env cbNone (_format_trip_prompt req)).1.success =
        false →
      plan_trip true env db expired request =
        ExecOutcome.httpError
          ⟨500, ((run_travel_planning env cbNone
              (_format_trip_prompt req)).1.error).getD "Planning failed"⟩) ∧
    (∀ req, request.shape = ReqShape.multi req →
      (validate_multi_city_trip req.trip_legs).1 = true →
      (emailTruthy request.user_email &&
        !(has_active_subscription db (request.user_email.getD "") expired)) =
          false →
      (run_multi_city_planning env cbNone req.trip_legs req.budget
          req.passengers).1.success = false →
      plan_trip true env db expired request =
        ExecOutcome.httpError
          ⟨500, ((run_multi_city_planning env cbNone req.trip_legs req.budget
              req.passengers).1.error).getD "Planning failed"⟩) := by
  constructor
  · intro req hshape hfail
    simp only [plan_trip, _execute_trip_planning, hshape, Bool.not_true,
      Bool.false_eq_true, if_false]
    rw [wrapResult_fail _ hfail]
  · intro req hshape hval hgate hfail
    simp only [plan_trip, _execute_trip_planning, hshape, Bool.not_true,
      Bool.false_eq_true, if_false, hval, Bool.not_false, Bool.true_and,
      hgate, if_true]
    rw [wrapResult_fail _ hfail]

/-- Witness for C7 amended: the concrete planner-failure run surfaces as an
HTTP 500 whose detail is the recorded error string. -/
theorem C7_amended_witness :
    plan_trip true envBoom [] neverExpired
        ⟨ReqShape.multi reqMultiW, none⟩ =
      ExecOutcome.httpError ⟨500, "agent exploded"⟩ := by
  have h := (C7_amended_failure_becomes_http_500 envBoom [] neverExpired
    ⟨ReqShape.multi reqMultiW, none⟩).2 reqMultiW rfl (by decide) rfl rfl
  simpa using h

/-- Counterexample to C8 as stated: these two legs (NYC→LAX, LAX→SFO) are
continuous but violate the round-trip condition, and the rejection message
names the start and end cities only — it contains no digit, so it names no
leg index. -/
theorem C8_counterexample :
    (validate_multi_city_trip legsCexW).1 = false ∧
    (validate_multi_city_trip legsCexW).2 =
      "Trip must return to origin. Started at NYC, ended at SFO" ∧
    hasDigit (validate_multi_city_trip legsCexW).2 = false := by decide

/-- C8 amended: for a 2..4-leg list, a continuity violation is rejected with
the message "Leg i+1 ends at ... but leg i+2 starts at ..." naming the
1-based indices of the actual offending adjacent legs, while a round-trip
violation is rejected with a message naming the start and end cities rather
than a leg index. -/
theorem C8_amended_rejection_messages (legs : List TripLeg)
    (hc : ¬ legs.length < 2) (hm : ¬ legs.length > 4) :
    ((legs.headD default).origin ≠ (legs.getLastD default).destination →
      validate_multi_city_trip legs =
        (false, "Trip must return to origin. Started at " ++
          (legs.headD default).origin ++ ", ended at " ++
          (legs.getLastD default).destination)) ∧
    (∀ i a b,
      (legs.headD default).origin = (legs.getLastD default).destination →
      findDiscontinuity legs 0 = some (i, a, b) →
      validate_multi_city_trip legs = (false, continuityMessage i a b) ∧
      legs[i]? = some a ∧ legs[i + 1]? = some b ∧
      a.destination ≠ b.origin) := by
  constructor
  · intro hne
    unfold validate_multi_city_trip
    rw [if_neg hc, if_neg hm, if_pos hne]
  · intro i a b heq hd
    refine ⟨?_, ?_⟩
    · unfold validate_multi_city_trip
      rw [if_neg hc, if_neg hm, if_neg (fun hno => hno heq), hd]
    · obtain ⟨k, hk, ha, hb, hne⟩ := findDiscontinuity_some legs 0 i a b hd
      have hki : k = i := by omega
      subst hki
      exact ⟨ha, hb, hne⟩

/-- Witness for C8 amended: a round trip broken between leg 1 and leg 2 is
rejected with the message naming legs 1 and 2, at the correct positions. -/
theorem C8_amended_witness :
    validate_multi_city_trip legsDiscontW =
      (false, "Leg 1 ends at LAX but leg 2 starts at SFO") ∧
    legsDiscontW[0]? = some ⟨"NYC", "LAX", "2025-01-15", 1⟩ ∧
    legsDiscontW[1]? = some ⟨"SFO", "NYC", "2025-01-20", 2⟩ := by
  have h := ((C8_amended_rejection_messages legsDiscontW (by decide)
      (by decide)).2 0 ⟨"NYC", "LAX", "2025-01-15", 1⟩
      ⟨"SFO", "NYC", "2025-01-20", 2⟩ (by decide) (by decide))
  refine ⟨?_, h.2.1, h.2.2.1⟩
  have := h.1
  rw [this]
  decide

/-- C9: `extract_messages` computes the effective output text as the agent's
`final_output` when it is present and non-empty; otherwise as the content of
the last extracted transcript message when at least one exists; otherwise as
the literal string "No response generated". -/
theorem C9_effective_output_fallback (ar : AgentResult) :
    (∀ s, ar.final_output = some s → s ≠ "" → (extract_messages ar).1 = s) ∧
    ((ar.final_output = none ∨ ar.final_output = some "") →
      (extract_messages ar).1 = fallbackResponse (extract_messages ar).2) ∧
    ((extract_messages ar).2 ≠ [] →
      ∃ last, (extract_messages ar).2.getLast? = some last ∧
        fallbackResponse (extract_messages ar).2 = last.content) ∧
    ((extract_messages ar).2 = [] →
      fallbackResponse (extract_messages ar).2 = "No response generated") := by
  refine ⟨?_, ?_, ?_, ?_⟩
  · intro s hs hne
    simp [extract_messages, hs, hne]
  · rintro (hn | he)
    · simp [extract_messages, hn]
    · simp [extract_messages, he]
  · intro hne
    cases hl : (extract_messages ar).2.getLast? with
    | none => exact absurd (List.getLast?_eq_none_iff.mp hl) hne
    | some m => exact ⟨m, rfl, by simp [fallbackResponse, hl]⟩
  · intro h
    simp [fallbackResponse, h]

/-- Witness for C9: the three fallback regimes at concrete agent results. -/
theorem C9_witness :
    (extract_messages arA).1 = "final" ∧
    (extract_messages arB).1 = "hello" ∧
    (extract_messages arC).1 = "No response generated" := by
  refine ⟨(C9_effective_output_fallback arA).1 "final" rfl (by decide),
    ?_, ?_⟩
  · have h := (C9_effective_output_fallback arB).2.1 (Or.inl rfl)
    rw [h]
    decide
  · have h := (C9_effective_output_fallback arC).2.1 (Or.inr rfl)
    rw [h]
    decide

/-- C10: the night computation of `search_hotels` never fails — when either
date string does not parse the number of nights defaults to 1, and when both
parse it equals `(checkout - checkin).days` even when that is zero or
negative — and every returned hotel record carries
`total_cost = price_per_night * nights` together with the `nights` field. -/
theorem C10_search_hotels_nights_and_cost (parseDate : String → Option Int)
    (hotels : List HotelRec) (city checkin_date checkout_date : String)
    (max_price : Option ℚ) :
    (∀ a b, parseDate checkin_date = some a → parseDate checkout_date = some b →
      nightsBetween parseDate checkin_date checkout_date = b - a) ∧
    ((parseDate checkin_date = none ∨ parseDate checkout_date = none) →
      nightsBetween parseDate checkin_date checkout_date = 1) ∧
    (∀ out, out ∈ search_hotels parseDate hotels city checkin_date
        checkout_date max_price →
      out.total_cost = out.base.price_per_night *
        ((nightsBetween parseDate checkin_date checkout_date : Int) : ℚ) ∧
      out.nights = nightsBetween parseDate checkin_date checkout_date) := by
  refine ⟨?_, ?_, ?_⟩
  · intro a b ha hb
    simp [nightsBetween, ha, hb]
  · rintro (h | h) <;> simp [nightsBetween, h]
  · intro out hmem
    simp only [search_hotels, List.mem_mergeSort] at hmem
    obtain ⟨h, _, heq⟩ := List.mem_filterMap.mp hmem
    cases hmp : max_price with
    | none =>
        subst hmp
        dsimp only at heq
        simp only [Option.some.injEq] at heq
        rw [← heq]
        exact ⟨rfl, rfl⟩
    | some mp =>
        subst hmp
        dsimp only at heq
        split at heq
        · simp only [Option.some.injEq] at heq
          rw [← heq]
          exact ⟨rfl, rfl⟩
        · cases heq

/-- Witness for C10: a parsed three-night stay produces a returned record
with `total_cost = price_per_night * 3`, and unparsable dates fall back to
one night. -/
theorem C10_witness :
    nightsBetween parseDateW "2025-01-10" "2025-01-13" = 3 ∧
    nightsBetween parseDateW "not-a-date" "2025-01-13" = 1 ∧
    (⟨hotelW, 600, 3⟩ : HotelOut) ∈ search_hotels parseDateW [hotelW]
      "los angeles" "2025-01-10" "2025-01-13" none ∧
    (600 : ℚ) = hotelW.price_per_night * ((3 : Int) : ℚ) := by
  have h1 := (C10_search_hotels_nights_and_cost parseDateW [hotelW]
    "los angeles" "2025-01-10" "2025-01-13" none).1 10 13 (by decide)
    (by decide)
  have h1' : nightsBetween parseDateW "2025-01-10" "2025-01-13" = 3 := by
    rw [h1]
    decide
  have h2 := (C10_search_hotels_nights_and_cost parseDateW [hotelW]
    "los angeles" "not-a-date" "2025-01-13" none).2.1 (Or.inl (by decide))
  have hmem : (⟨hotelW, 600, 3⟩ : HotelOut) ∈ search_hotels parseDateW
      [hotelW] "los angeles" "2025-01-10" "2025-01-13" none := by
    simp only [search_hotels, List.mem_mergeSort]
    refine List.mem_filterMap.mpr ⟨hotelW, ?_, ?_⟩
    · exact List.mem_filter.mpr ⟨List.mem_singleton_self _, by decide⟩
    · dsimp only
      rw [h1']
      norm_num [hotelW]
  have h3 := (C10_search_hotels_nights_and_cost parseDateW [hotelW]
    "los angeles" "2025-01-10" "2025-01-13" none).2.2 ⟨hotelW, 600, 3⟩ hmem
  refine ⟨h1', h2, hmem, ?_⟩
  have h4 := h3.1
  rw [h1'] at h4
  exact h4
